import Mathlib

/-!
Verification of the autonomous research-and-decision subsystem of the
Cirkelline-Kv1ntos repository (`cla/src-tauri/src`): the signal processor,
decision engine, task scheduler, offline sync queue, adapter rate limiter
and relevance scorer are shallowly embedded as pure Lean functions, and the
spec's testable properties are settled against them.

Modelling conventions:
* `f32` score values are modelled as real numbers (`ℝ`): the code only
  constructs them from decimal literals, copies and compares them, except
  for the relevance scorer's engagement factor, which applies a real
  logarithm.
* `Debug`/`format!` rendering of numbers inside rationale strings is
  elided (no claim depends on it).
* `chrono` timestamps and durations are modelled as integer seconds;
  `std::time::Instant` as natural-number seconds (monotone clock), with
  `Instant::duration_since` as truncated subtraction.
* `serde_json::Value` metadata is modelled through the only view the
  embedded code takes of it — `value.get(key).and_then(|v| v.as_u64())` —
  as an association list from keys to integers (a non-integer or missing
  field reads as an absent `u64`).
* `String::to_lowercase` is modelled on the ASCII range, which covers every
  string the verified code and claims use.
* Stateful methods on `&self` become functions from the owned state to the
  updated state; the impure inputs of a call (`Utc::now()`, generated
  `uuid`s, `Instant::now()`) become explicit arguments.
-/

namespace Cirkelline

/-! ## JSON metadata (the `as_u64` view of `serde_json::Value`) -/

/-- An object-shaped `serde_json::Value`, restricted to the integer view the
embedded code reads from it. -/
def Metadata : Type := List (String × Int)

instance : DecidableEq Metadata := by unfold Metadata; infer_instance

/-- `metadata.get(key).and_then(|v| v.as_u64()).unwrap_or(0)`: a missing key
or a negative (not `u64`-representable) value reads as 0. -/
def metaU64 (m : Metadata) (key : String) : Nat :=
  match m.lookup key with
  | some n => if 0 ≤ n then n.toNat else 0
  | none => 0

/-! ## ASCII lowercasing and substring search (`to_lowercase`, `contains`) -/

/-- ASCII lowercasing of one character. -/
def lowerChar (c : Char) : Char :=
  if 65 ≤ c.toNat ∧ c.toNat ≤ 90 then Char.ofNat (c.toNat + 32) else c

/-- `String::to_lowercase`, on the ASCII range. -/
def toLowerStr (s : String) : String := ⟨s.data.map lowerChar⟩

/-- `str::contains(pat)`: `pat` occurs as a contiguous substring of `s`. -/
def containsStr (s pat : String) : Bool := decide (pat.data <:+: s.data)

/-! ## Data model (`commander/mod.rs`) -/

/-- `ResearchSource` — the tagged source variant of a finding. -/
inductive ResearchSource where
  | GitHub
  | ArXiv
  | Twitter
  | Farcaster
  | LensProtocol
  | CustomFeed (name : String)
deriving DecidableEq

/-- `ResearchFinding` — a normalized record of one discovered item. -/
structure ResearchFinding where
  id : String
  source : ResearchSource
  title : String
  summary : String
  relevance_score : ℝ
  discovered_at : Int
  tags : List String
  url : Option String
  metadata : Metadata

/-! ## Decision engine data types (`commander/decision_engine.rs`) -/

/-- `Severity` levels of a security vulnerability signal. -/
inductive Severity where
  | Critical
  | High
  | Medium
  | Low
  | Info
deriving DecidableEq

/-- `MarketSignalType`. -/
inductive MarketSignalType where
  | BullishTrend
  | BearishTrend
  | NewProject
  | PartnershipAnnouncement
  | RegulatoryNews
deriving DecidableEq

/-- `Signal` — the typed decision signals the Commander can receive. -/
inductive Signal where
  | NewTechnologyDetected (name : String) (relevance_score : ℝ) (source : String)
  | SecurityVulnerability (severity : Severity) (cve_id : Option String)
      (affected_component : String)
  | MarketSignal (signal_type : MarketSignalType) (confidence : ℝ) (details : String)
  | ResearchPublished (title : String) (relevance_score : ℝ) (domain : String)
  | SocialTrend (topic : String) (momentum : ℝ) (platform : String)


/-- `Action` — the eight actions the Commander can take. -/
inductive Action where
  | DeepAnalyze
  | QueueForReview
  | Archive
  | ImmediateAlert
  | Monitor
  | RecommendAction
  | RequestValidation
  | StandardProcess
deriving DecidableEq

/-- `Decision` — the outcome of one decision cycle. -/
structure Decision where
  id : String
  signal_type : String
  action : Action
  confidence : ℝ
  rationale : String
  timestamp : Int
  requires_approval : Bool


/-- `SignalContext` — the context extracted from a signal in the Observe
phase. -/
structure SignalContext where
  relevance_score : ℝ
  severity : Option Severity
  confidence : ℝ


/-! ## SignalProcessor (`research/processors/signal_processor.rs`) -/

/-- `SignalProcessor` thresholds. -/
structure SignalProcessor where
  relevance_threshold : ℝ
  popularity_threshold : Nat


/-- `SignalProcessor::default()`: relevance threshold 0.6, popularity
threshold 100. -/
noncomputable def SignalProcessor.default : SignalProcessor :=
  { relevance_threshold := 0.6, popularity_threshold := 100 }

/-- The security keyword list of `process_github_finding`. -/
def securityKeywords : List String :=
  ["cve", "vulnerability", "security", "exploit", "patch"]

/-- The `is_security` test of `process_github_finding`: some security
keyword occurs in the lowercased title or summary. -/
def isSecurityFinding (f : ResearchFinding) : Bool :=
  securityKeywords.any fun kw =>
    containsStr (toLowerStr f.title) kw || containsStr (toLowerStr f.summary) kw

/-- The severity determination of `process_github_finding`: Critical when
the lowercased summary contains "critical", else High when it contains
"high", else Medium. -/
def severityFor (f : ResearchFinding) : Severity :=
  if containsStr (toLowerStr f.summary) "critical" then .Critical
  else if containsStr (toLowerStr f.summary) "high" then .High
  else .Medium

/-- `process_github_finding`. -/
noncomputable def SignalProcessor.process_github_finding (p : SignalProcessor)
    (f : ResearchFinding) : Option Signal :=
  if isSecurityFinding f then
    some (.SecurityVulnerability (severityFor f) (some f.id) f.title)
  else if p.popularity_threshold ≤ metaU64 f.metadata "stars"
      ∨ (0.8 : ℝ) ≤ f.relevance_score then
    some (.NewTechnologyDetected f.title f.relevance_score "GitHub")
  else
    none

/-- `process_arxiv_finding`: always a `ResearchPublished` signal; the domain
is the first tag, defaulting to "Unknown". -/
noncomputable def SignalProcessor.process_arxiv_finding (_ : SignalProcessor)
    (f : ResearchFinding) : Option Signal :=
  some (.ResearchPublished f.title f.relevance_score (f.tags.head?.getD "Unknown"))

/-- `process_social_finding`: a `SocialTrend` signal when engagement
metadata exceeds 1000 or relevance is at least 0.75. -/
noncomputable def SignalProcessor.process_social_finding (_ : SignalProcessor)
    (f : ResearchFinding) : Option Signal :=
  if 1000 < metaU64 f.metadata "engagement" ∨ (0.75 : ℝ) ≤ f.relevance_score then
    some (.SocialTrend f.title f.relevance_score (reprSource f.source))
  else
    none
where
  /-- `format!("{:?}", finding.source)` — the derived Debug rendering. -/
  reprSource : ResearchSource → String
    | .GitHub => "GitHub"
    | .ArXiv => "ArXiv"
    | .Twitter => "Twitter"
    | .Farcaster => "Farcaster"
    | .LensProtocol => "LensProtocol"
    | .CustomFeed name => "CustomFeed(\"" ++ name ++ "\")"

/-- `process_custom_finding`: a generic `NewTechnologyDetected` signal when
relevance is at least 0.7. -/
noncomputable def SignalProcessor.process_custom_finding (_ : SignalProcessor)
    (f : ResearchFinding) : Option Signal :=
  if (0.7 : ℝ) ≤ f.relevance_score then
    some (.NewTechnologyDetected f.title f.relevance_score "CustomFeed")
  else
    none

/-- `SignalProcessor::process`: findings below the relevance threshold are
dropped; otherwise routing is source-dependent. -/
noncomputable def SignalProcessor.process (p : SignalProcessor) (f : ResearchFinding) :
    Option Signal :=
  if f.relevance_score < p.relevance_threshold then none
  else
    match f.source with
    | .GitHub => p.process_github_finding f
    | .ArXiv => p.process_arxiv_finding f
    | .Twitter | .Farcaster | .LensProtocol => p.process_social_finding f
    | .CustomFeed _ => p.process_custom_finding f

/-- `process_batch`: filter-map `process` over a finding list. -/
noncomputable def SignalProcessor.process_batch (p : SignalProcessor)
    (findings : List ResearchFinding) : List Signal :=
  findings.filterMap p.process

/-! ## DecisionEngine (`commander/decision_engine.rs`)

`DecisionEngine` holds no state, so its methods become plain functions; the
generated uuid and the `Utc::now()` timestamp taken inside `process_signal`
become explicit arguments. -/

namespace DecisionEngine

/-- `build_context` — the Observe phase. -/
noncomputable def build_context : Signal → SignalContext
  | .NewTechnologyDetected _ relevance_score _ =>
      { relevance_score, severity := none, confidence := relevance_score }
  | .SecurityVulnerability severity _ _ =>
      { relevance_score := 1.0, severity := some severity, confidence := 0.9 }
  | .MarketSignal _ confidence _ =>
      { relevance_score := 0.7, severity := none, confidence }
  | .ResearchPublished _ relevance_score _ =>
      { relevance_score, severity := none, confidence := relevance_score }
  | .SocialTrend _ momentum _ =>
      { relevance_score := momentum, severity := none, confidence := momentum * 0.7 }

/-- `get_signal_type` — the Orient phase's canonical type label. -/
def get_signal_type : Signal → String
  | .NewTechnologyDetected .. => "new_technology_detected"
  | .SecurityVulnerability .. => "security_vulnerability"
  | .MarketSignal .. => "market_signal"
  | .ResearchPublished .. => "research_published"
  | .SocialTrend .. => "social_trend"

/-- `apply_rules` — the Decide phase's fixed rule table. The `context`
argument is taken (as in the source) but the rules match on the signal's own
payload. -/
noncomputable def apply_rules (signal : Signal) (_context : SignalContext) : Action × ℝ :=
  match signal with
  | .NewTechnologyDetected _ relevance_score _ =>
      if 0.8 < relevance_score then (.DeepAnalyze, 0.9)
      else if 0.5 < relevance_score then (.QueueForReview, 0.7)
      else (.Archive, 0.8)
  | .SecurityVulnerability severity _ _ =>
      match severity with
      | .Critical => (.ImmediateAlert, 0.95)
      | .High => (.DeepAnalyze, 0.85)
      | _ => (.StandardProcess, 0.7)
  | .MarketSignal _ confidence _ =>
      if 0.9 < confidence then (.RecommendAction, 0.85)
      else if 0.7 < confidence then (.RequestValidation, 0.75)
      else (.Monitor, 0.6)
  | .ResearchPublished _ relevance_score _ =>
      if 0.7 < relevance_score then (.DeepAnalyze, 0.8)
      else (.Archive, 0.7)
  | .SocialTrend _ momentum _ =>
      if 0.8 < momentum then (.DeepAnalyze, 0.7)
      else (.Monitor, 0.6)

/-- `generate_rationale`. -/
def generate_rationale (signal : Signal) (action : Action) : String :=
  match signal, action with
  | .SecurityVulnerability .Critical _ _, .ImmediateAlert =>
      "Critical security vulnerability detected - immediate attention required"
  | .NewTechnologyDetected name _ _, .DeepAnalyze =>
      "High relevance technology " ++ name ++ " detected - deep analysis recommended"
  | .MarketSignal .., .RecommendAction =>
      "High confidence market signal - action recommended"
  | _, _ => "Standard processing"

/-- `requires_approval` — the approval policy per action and confidence. -/
noncomputable def requires_approval (action : Action) (confidence : ℝ) : Bool :=
  match action with
  | .ImmediateAlert => false
  | .Archive => false
  | .Monitor => false
  | .DeepAnalyze => confidence < 0.85
  | .RecommendAction => true
  | .RequestValidation => true
  | .QueueForReview => true
  | .StandardProcess => false

/-- `process_signal` — the full OODA pipeline producing a `Decision`. The
generated uuid (`id`) and the wall-clock timestamp (`now`) are the call's
impure inputs, passed explicitly. -/
noncomputable def process_signal (id : String) (now : Int) (signal : Signal) : Decision :=
  let context := build_context signal
  let signal_type := get_signal_type signal
  let ac := apply_rules signal context
  { id
    signal_type
    action := ac.1
    confidence := ac.2
    rationale := generate_rationale signal ac.1
    timestamp := now
    requires_approval := requires_approval ac.1 ac.2 }

end DecisionEngine

/-! ## TaskScheduler (`commander/task_scheduler.rs`)

The scheduler's `RwLock<VecDeque<ResearchTask>>` becomes an explicit
`List ResearchTask` threaded through pure functions; the front of the
`VecDeque` is the head of the list. -/

/-- `TaskPriority`, with its explicit discriminants (the derived ordering
compares discriminants). -/
inductive TaskPriority where
  | Critical
  | High
  | Normal
  | Low
  | Background
deriving DecidableEq

/-- The explicit discriminant of each priority: Critical = 4 down to
Background = 0. -/
def TaskPriority.toNat : TaskPriority → Nat
  | .Critical => 4
  | .High => 3
  | .Normal => 2
  | .Low => 1
  | .Background => 0

/-- `TaskStatus`. -/
inductive TaskStatus where
  | Pending
  | Running
  | Completed
  | Failed (msg : String)
  | Cancelled
deriving DecidableEq

/-- `ResearchTask`. -/
structure ResearchTask where
  id : String
  topic : String
  priority : TaskPriority
  status : TaskStatus
  source : Option ResearchSource
  created_at : Int
  started_at : Option Int
  completed_at : Option Int
  retry_count : Nat
  max_retries : Nat
deriving DecidableEq

namespace TaskScheduler

/-- The scheduler's `max_queue_size` (100 in `TaskScheduler::new`). -/
def max_queue_size : Nat := 100

/-- The eviction step of `add_task` when the queue is at capacity: remove
the first Background-priority task if one exists, else `pop_front()`. -/
def evictOne (queue : List ResearchTask) : List ResearchTask :=
  match removeFirstBackground queue with
  | some queue1 => queue1
  | none => queue.tail
where
  /-- Remove the first task whose priority is Background; `none` when no
  task has Background priority. -/
  removeFirstBackground : List ResearchTask → Option (List ResearchTask)
    | [] => none
    | t :: ts =>
        if t.priority = .Background then some ts
        else (removeFirstBackground ts).map (t :: ·)

/-- The insertion step of `add_task`: insert the new task at the position of
the first existing task of strictly lower priority (at the end when there is
none). -/
def insertByPriority (task : ResearchTask) : List ResearchTask → List ResearchTask
  | [] => [task]
  | t :: ts =>
      if t.priority.toNat < task.priority.toNat then task :: t :: ts
      else t :: insertByPriority task ts

/-- `add_task`: evict when at capacity, then insert by priority. -/
def addTask (queue : List ResearchTask) (task : ResearchTask) : List ResearchTask :=
  let queue1 := if max_queue_size ≤ queue.length then evictOne queue else queue
  insertByPriority task queue1

/-- `get_next_task`: find the first Pending task, remove it from the queue,
mark it Running with the start timestamp `now`, and return it together with
the remaining queue (`none` when no task is Pending). -/
def getNextTask (now : Int) : List ResearchTask → Option (ResearchTask × List ResearchTask)
  | [] => none
  | t :: ts =>
      if t.status = .Pending then
        some ({ t with status := .Running, started_at := some now }, ts)
      else
        (getNextTask now ts).map fun r => (r.1, t :: r.2)

/-- `cancel_task`: mark the first task with the given id Cancelled in place;
the returned flag reports whether such a task was found. -/
def cancelTask (task_id : String) : List ResearchTask → List ResearchTask × Bool
  | [] => ([], false)
  | t :: ts =>
      if t.id = task_id then ({ t with status := .Cancelled } :: ts, true)
      else
        let r := cancelTask task_id ts
        (t :: r.1, r.2)

/-- `clear_completed`: retain every task whose status is neither Completed
nor Failed. -/
def clearCompleted (queue : List ResearchTask) : List ResearchTask :=
  queue.filter fun t =>
    match t.status with
    | .Completed => false
    | .Failed _ => false
    | _ => true

end TaskScheduler

/-! ## CkcSync offline queue (`commander/sync.rs`)

Only the offline queue's enqueue operation is pure state manipulation; the
connectivity probe and batch "sync" involve the network and are out of
scope here. The queue's `VecDeque<SyncItem>` becomes a list whose head is
the front (oldest) item. -/

/-- `SyncItemType`. -/
inductive SyncItemType where
  | Finding
  | Decision
  | Telemetry
  | AgentLearning
deriving DecidableEq

/-- `SyncItem` — one queued offline item. The JSON payload is carried in
the same restricted object model as finding metadata. -/
structure SyncItem where
  id : String
  item_type : SyncItemType
  data : Metadata
  created_at : Int
  retry_count : Nat
deriving DecidableEq

namespace CkcSync

/-- `queue_for_sync`: build the new item (generated uuid and timestamp are
explicit arguments), evict the front (oldest) item when the queue has
reached `offline_queue_max`, then push the new item at the back. -/
def queueForSync (offline_queue_max : Nat) (id : String) (now : Int)
    (item_type : SyncItemType) (data : Metadata)
    (queue : List SyncItem) : List SyncItem :=
  let item : SyncItem :=
    { id, item_type, data, created_at := now, retry_count := 0 }
  let queue1 := if offline_queue_max ≤ queue.length then queue.tail else queue
  queue1 ++ [item]

end CkcSync

/-! ## RateLimiter (`research/adapters/common.rs`)

The limiter's shared state (`AtomicU64` counter, `Mutex<Instant>` window
start) becomes an explicit record threaded through `check`/`record`;
`Instant::now()` at a `check` call is an explicit argument. -/

/-- `RateLimiter` state: configuration plus the mutable counter and window
start. Times are in seconds on a monotone clock. -/
structure RateLimiter where
  max_requests : Nat
  window : Nat
  request_count : Nat
  window_start : Nat
deriving DecidableEq

namespace RateLimiter

/-- `RateLimiter::new(max_requests, window_secs)` at clock time `now`. -/
def new (max_requests window_secs now : Nat) : RateLimiter :=
  { max_requests, window := window_secs, request_count := 0, window_start := now }

/-- `check` at clock time `now`: reset the window (and counter) when the
window has elapsed, then report whether the count is below the maximum.
Returns the answer together with the updated state. -/
def check (rl : RateLimiter) (now : Nat) : Bool × RateLimiter :=
  let rl1 :=
    if rl.window ≤ now - rl.window_start then
      { rl with window_start := now, request_count := 0 }
    else rl
  (rl1.request_count < rl1.max_requests, rl1)

/-- `record`: one `fetch_add(1)` on the request counter. -/
def record (rl : RateLimiter) : RateLimiter :=
  { rl with request_count := rl.request_count + 1 }

/-- `n` successive calls to `record`. -/
def recordN (n : Nat) (rl : RateLimiter) : RateLimiter :=
  match n with
  | 0 => rl
  | n + 1 => record (recordN n rl)

end RateLimiter

/-! ## RelevanceScorer (`research/processors/relevance_scorer.rs`)

The scorer's engagement factor takes a real logarithm, so the scorer is
modelled over `ℝ`. The keyword `HashSet<String>` becomes a `Finset String`.
`Utc::now()` in `recency_score` is an explicit argument `now`. -/

/-- `ScoringWeights`. -/
structure ScoringWeights where
  keyword_match : ℝ
  recency : ℝ
  source_authority : ℝ
  engagement : ℝ

/-- `ScoringWeights::default()`: keyword 0.40, recency 0.20, authority 0.25,
engagement 0.15. -/
noncomputable def ScoringWeights.default : ScoringWeights :=
  { keyword_match := 0.4, recency := 0.2, source_authority := 0.25,
    engagement := 0.15 }

/-- `RelevanceScorer` configuration. -/
structure RelevanceScorer where
  keywords : Finset String
  weights : ScoringWeights
  min_threshold : ℝ

namespace RelevanceScorer

/-- `keyword_score`: 0.5 when no keywords are configured; otherwise the
fraction of configured keywords occurring in the lowercased
title+summary+tags text, capped at 1. -/
noncomputable def keyword_score (s : RelevanceScorer) (f : ResearchFinding) : ℝ :=
  if s.keywords = ∅ then 0.5
  else
    let text := toLowerStr f.title ++ " " ++ toLowerStr f.summary ++ " "
      ++ toLowerStr (" ".intercalate f.tags)
    let nMatches := (s.keywords.filter fun kw => containsStr text kw).card
    min ((nMatches : ℝ) / (s.keywords.card : ℝ)) 1

/-- `recency_score`: a step function of the finding's age (in seconds) at
clock time `now` — under 1 day 1.0, under 7 days 0.8, under 30 days 0.5,
else 0.2. -/
noncomputable def recency_score (now : Int) (f : ResearchFinding) : ℝ :=
  let age := now - f.discovered_at
  if age < 86400 then 1.0
  else if age < 604800 then 0.8
  else if age < 2592000 then 0.5
  else 0.2

/-- `source_authority_score`: the fixed per-source authority constant. -/
noncomputable def source_authority_score (f : ResearchFinding) : ℝ :=
  match f.source with
  | .ArXiv => 0.95
  | .GitHub => 0.85
  | .Twitter => 0.5
  | .Farcaster => 0.6
  | .LensProtocol => 0.6
  | .CustomFeed _ => 0.7

/-- `engagement_score`: with total engagement `stars + 10·citations +
likes`, the score is 0.3 when the total is zero, else `ln(total)/ln(10)`,
in both cases capped at 1. -/
noncomputable def engagement_score (f : ResearchFinding) : ℝ :=
  let stars := metaU64 f.metadata "stars"
  let citations := metaU64 f.metadata "citations"
  let likes := metaU64 f.metadata "likes"
  let engagement := stars + citations * 10 + likes
  min (if engagement = 0 then 0.3
       else Real.log (engagement : ℝ) / Real.log 10) 1

/-- `score`: the weighted sum of the four sub-scores,
`total.max(0.0).min(1.0)`-clamped into [0, 1]. -/
noncomputable def score (s : RelevanceScorer) (now : Int)
    (f : ResearchFinding) : ℝ :=
  let total :=
    keyword_score s f * s.weights.keyword_match
      + recency_score now f * s.weights.recency
      + source_authority_score f * s.weights.source_authority
      + engagement_score f * s.weights.engagement
  min (max total 0) 1

/-- `score_all`: store the computed score into each finding's
`relevance_score` field. -/
noncomputable def score_all (s : RelevanceScorer) (now : Int)
    (findings : List ResearchFinding) : List ResearchFinding :=
  findings.map fun f => { f with relevance_score := s.score now f }

end RelevanceScorer

/-- Modelled from the spec: the clamp to [0, 1] named by the sentence
"Final score = Σ(sub-score × weight), … clamped to [0,1]"; stated
independently of the code's `total.max(0.0).min(1.0)` composition for the
refinement comparison in the scoring claims. -/
noncomputable def specClamp01 (x : ℝ) : ℝ := max 0 (min x 1)

/-! # Theorems

One theorem per claim of the specification review, with shared helper
lemmas, witnesses at concrete inputs and counterexamples where the claim
as stated fails on the code. -/

/-- C4: the action and confidence of the Decision returned by
`process_signal` are a deterministic function of the signal alone — the
call's impure inputs (generated uuid, wall-clock timestamp) do not affect
them, so two calls with identical signals yield identical action and
confidence, both given by `apply_rules` on the signal and its context. -/
theorem C4_decision_determinism (s : Signal) (id1 id2 : String) (t1 t2 : Int) :
    (DecisionEngine.process_signal id1 t1 s).action
        = (DecisionEngine.process_signal id2 t2 s).action
    ∧ (DecisionEngine.process_signal id1 t1 s).confidence
        = (DecisionEngine.process_signal id2 t2 s).confidence
    ∧ (DecisionEngine.process_signal id1 t1 s).action
        = (DecisionEngine.apply_rules s (DecisionEngine.build_context s)).1
    ∧ (DecisionEngine.process_signal id1 t1 s).confidence
        = (DecisionEngine.apply_rules s (DecisionEngine.build_context s)).2 :=
  ⟨rfl, rfl, rfl, rfl⟩

/-- C6 counterexample: with `offline_queue_max = 0` (the configuration field
is an arbitrary `usize`), a call on an empty queue — which is at capacity —
evicts nothing and leaves the queue at length 1, exceeding
`offline_queue_max`; the claim as stated (the queue length after the call
equals `offline_queue_max` and never exceeds it) is false there. -/
theorem C6_counterexample :
    (CkcSync.queueForSync 0 "item-1" 0 .Finding [] []).length = 1 := rfl

/-- C6 (amended: for `offline_queue_max ≥ 1`): when the queue holds at most
`offline_queue_max` items, `queue_for_sync` appends the new item at the
back; below capacity nothing is evicted, and at capacity exactly the front
(oldest) item is evicted, leaving the length at exactly
`offline_queue_max`; the length never exceeds `offline_queue_max`. -/
theorem C6_offline_queue_bound (maxq : Nat) (id : String) (now : Int)
    (ty : SyncItemType) (data : Metadata) (q : List SyncItem)
    (hmax : 1 ≤ maxq) (hlen : q.length ≤ maxq) :
    (CkcSync.queueForSync maxq id now ty data q).length ≤ maxq
    ∧ (q.length < maxq →
        CkcSync.queueForSync maxq id now ty data q
          = q ++ [{ id, item_type := ty, data, created_at := now, retry_count := 0 }])
    ∧ (q.length = maxq →
        CkcSync.queueForSync maxq id now ty data q
          = q.tail ++ [{ id, item_type := ty, data, created_at := now, retry_count := 0 }]
        ∧ (CkcSync.queueForSync maxq id now ty data q).length = maxq) := by
  unfold CkcSync.queueForSync
  rcases lt_or_eq_of_le hlen with hlt | heq
  · have hcond : ¬ maxq ≤ q.length := by omega
    refine ⟨?_, fun _ => ?_, fun habs => absurd habs (by omega)⟩
    · simp only [if_neg hcond, List.length_append, List.length_cons,
        List.length_nil]
      omega
    · simp [if_neg hcond]
  · have hcond : maxq ≤ q.length := le_of_eq heq.symm
    have hne : q ≠ [] := by
      intro hnil
      rw [hnil] at heq
      simp at heq
      omega
    have htail : q.tail.length = q.length - 1 := List.length_tail q
    refine ⟨?_, fun habs => absurd habs (by omega), fun _ => ⟨?_, ?_⟩⟩
    · simp only [if_pos hcond, List.length_append, List.length_cons,
        List.length_nil]
      omega
    · simp [if_pos hcond]
    · simp only [if_pos hcond, List.length_append, List.length_cons,
        List.length_nil]
      omega

/-- C6 witness: the amended bound at a concrete input — capacity 2, a queue
of two items, all three conclusions instantiated. -/
theorem C6_offline_queue_bound_witness :
    (CkcSync.queueForSync 2 "c" 5 .Finding []
        [⟨"a", .Finding, [], 0, 0⟩, ⟨"b", .Decision, [], 1, 0⟩]).length ≤ 2
    ∧ (([⟨"a", .Finding, [], 0, 0⟩, ⟨"b", .Decision, [], 1, 0⟩] :
          List SyncItem).length < 2 →
        CkcSync.queueForSync 2 "c" 5 .Finding []
            [⟨"a", .Finding, [], 0, 0⟩, ⟨"b", .Decision, [], 1, 0⟩]
          = [⟨"a", .Finding, [], 0, 0⟩, ⟨"b", .Decision, [], 1, 0⟩]
              ++ [{ id := "c", item_type := .Finding, data := [],
                    created_at := 5, retry_count := 0 }])
    ∧ (([⟨"a", .Finding, [], 0, 0⟩, ⟨"b", .Decision, [], 1, 0⟩] :
          List SyncItem).length = 2 →
        CkcSync.queueForSync 2 "c" 5 .Finding []
            [⟨"a", .Finding, [], 0, 0⟩, ⟨"b", .Decision, [], 1, 0⟩]
          = ([⟨"a", .Finding, [], 0, 0⟩, ⟨"b", .Decision, [], 1, 0⟩] :
              List SyncItem).tail
              ++ [{ id := "c", item_type := .Finding, data := [],
                    created_at := 5, retry_count := 0 }]
        ∧ (CkcSync.queueForSync 2 "c" 5 .Finding []
              [⟨"a", .Finding, [], 0, 0⟩, ⟨"b", .Decision, [], 1, 0⟩]).length = 2) :=
  C6_offline_queue_bound 2 "c" 5 .Finding []
    [⟨"a", .Finding, [], 0, 0⟩, ⟨"b", .Decision, [], 1, 0⟩]
    (by decide) (by decide)

/-- The state after `n` records on a freshly reset window: the counter is
exactly `n`, everything else unchanged. -/
theorem recordN_new (maxr window s n : Nat) :
    RateLimiter.recordN n (RateLimiter.new maxr window s)
      = { max_requests := maxr, window := window, request_count := n,
          window_start := s } := by
  induction n with
  | zero => rfl
  | succ k ih => simp [RateLimiter.recordN, RateLimiter.record, ih]

/-- C7 counterexample: with `max_requests = 0` (the constructor accepts any
`u32`), after exactly `max_requests = 0` calls to `record()` the window
elapses (time 7 on a window of 5 started at 0), the counter resets, and
`check()` still returns false — the claim as stated says it returns true
again at that point. -/
theorem C7_counterexample :
    (RateLimiter.check (RateLimiter.recordN 0 (RateLimiter.new 0 5 0)) 7).1
      = false := rfl

/-- C7 (amended: for `max_requests ≥ 1`): after exactly `max_requests`
records within one window (window start `s`, no intervening reset), any
`check` strictly inside the window returns false and leaves the state
unchanged — so every subsequent in-window check also returns false — and
once the window duration has elapsed, `check` resets the counter to zero,
restarts the window at the current instant, and returns true. -/
theorem C7_rate_limiter_window (maxr window s now : Nat) (hmax : 1 ≤ maxr) :
    (now - s < window →
      (RateLimiter.check
          (RateLimiter.recordN maxr (RateLimiter.new maxr window s)) now).1 = false
      ∧ (RateLimiter.check
          (RateLimiter.recordN maxr (RateLimiter.new maxr window s)) now).2
        = RateLimiter.recordN maxr (RateLimiter.new maxr window s))
    ∧ (window ≤ now - s →
      (RateLimiter.check
          (RateLimiter.recordN maxr (RateLimiter.new maxr window s)) now).1 = true
      ∧ (RateLimiter.check
          (RateLimiter.recordN maxr (RateLimiter.new maxr window s)) now).2
        = { max_requests := maxr, window := window, request_count := 0,
            window_start := now }) := by
  rw [recordN_new]
  constructor
  · intro hin
    have hcond : ¬ window ≤ now - s := by omega
    constructor
    · simp [RateLimiter.check, if_neg hcond]
    · simp [RateLimiter.check, if_neg hcond, recordN_new]
  · intro hout
    constructor
    · simp only [RateLimiter.check, if_pos hout]
      simpa using hmax
    · simp [RateLimiter.check, if_pos hout]

/-- C7 witness: the amended property at a concrete input — limit 2,
window 5 started at 0, checks at instants 3 (inside) and 6 (elapsed). -/
theorem C7_rate_limiter_window_witness :
    ((3 : Nat) - 0 < 5 →
      (RateLimiter.check
          (RateLimiter.recordN 2 (RateLimiter.new 2 5 0)) 3).1 = false
      ∧ (RateLimiter.check
          (RateLimiter.recordN 2 (RateLimiter.new 2 5 0)) 3).2
        = RateLimiter.recordN 2 (RateLimiter.new 2 5 0))
    ∧ (5 ≤ (3 : Nat) - 0 →
      (RateLimiter.check
          (RateLimiter.recordN 2 (RateLimiter.new 2 5 0)) 3).1 = true
      ∧ (RateLimiter.check
          (RateLimiter.recordN 2 (RateLimiter.new 2 5 0)) 3).2
        = { max_requests := 2, window := 5, request_count := 0,
            window_start := 3 }) :=
  C7_rate_limiter_window 2 5 0 3 (by decide)

/-- The concrete GitHub finding of the C1 scenario: the claim's title,
relevance 0.9, and a summary free of the severity words. -/
noncomputable def c1Finding : ResearchFinding :=
  { id := "finding-1", source := .GitHub,
    title := "Critical RCE vulnerability CVE-2024-X",
    summary := "A remote code execution issue was reported",
    relevance_score := 0.9, discovered_at := 0, tags := [], url := none,
    metadata := [] }

/-- C1 counterexample: on the claim's finding (title "Critical RCE
vulnerability CVE-2024-X", relevance 0.9, summary without severity words)
the processor emits severity Medium — `process_github_finding` reads the
severity from the summary only, and the summary contains neither
"critical" nor "high" — and the decision on the emitted signal is not
`ImmediateAlert` with confidence 0.95, contradicting the claim. -/
theorem C1_counterexample :
    SignalProcessor.default.process c1Finding
      = some (.SecurityVulnerability .Medium (some "finding-1")
          "Critical RCE vulnerability CVE-2024-X")
    ∧ (DecisionEngine.process_signal "d" 0
        (.SecurityVulnerability .Medium (some "finding-1")
          "Critical RCE vulnerability CVE-2024-X")).action ≠ .ImmediateAlert
    ∧ (DecisionEngine.process_signal "d" 0
        (.SecurityVulnerability .Medium (some "finding-1")
          "Critical RCE vulnerability CVE-2024-X")).confidence ≠ 0.95 := by
  have hsec : isSecurityFinding c1Finding = true := by decide
  have hsev : severityFor c1Finding = .Medium := by decide
  have h09 : ¬ (c1Finding.relevance_score
      < SignalProcessor.default.relevance_threshold) := by
    show ¬ ((0.9 : ℝ) < 0.6)
    norm_num
  refine ⟨?_, by decide, ?_⟩
  · unfold SignalProcessor.process
    rw [if_neg h09]
    show SignalProcessor.default.process_github_finding c1Finding = _
    unfold SignalProcessor.process_github_finding
    rw [hsec, hsev]
    rfl
  · show (0.7 : ℝ) ≠ 0.95
    norm_num

/-- C1 (amended): for a GitHub-sourced finding with title "Critical RCE
vulnerability CVE-2024-X", relevance score 0.9, and a summary containing
neither "critical" nor "high", `SignalProcessor.process` emits
`SecurityVulnerability` with severity Medium (the severity is inferred from
the summary only), and `DecisionEngine.process_signal` on that signal
returns action `StandardProcess` with confidence 0.70 and
`requires_approval = false`. -/
theorem C1_critical_cve_scenario (f : ResearchFinding)
    (hsrc : f.source = .GitHub)
    (htitle : f.title = "Critical RCE vulnerability CVE-2024-X")
    (hscore : f.relevance_score = 0.9)
    (hcrit : containsStr (toLowerStr f.summary) "critical" = false)
    (hhigh : containsStr (toLowerStr f.summary) "high" = false) :
    SignalProcessor.default.process f
      = some (.SecurityVulnerability .Medium (some f.id) f.title)
    ∧ ∀ id now,
        (DecisionEngine.process_signal id now
            (.SecurityVulnerability .Medium (some f.id) f.title)).action
          = .StandardProcess
        ∧ (DecisionEngine.process_signal id now
            (.SecurityVulnerability .Medium (some f.id) f.title)).confidence
          = 0.7
        ∧ (DecisionEngine.process_signal id now
            (.SecurityVulnerability .Medium (some f.id) f.title)).requires_approval
          = false := by
  have hsec : isSecurityFinding f = true := by
    unfold isSecurityFinding securityKeywords
    rw [htitle]
    simp only [List.any_cons, List.any_nil, Bool.or_eq_true]
    exact Or.inl (Or.inl (by decide))
  have hsev : severityFor f = .Medium := by
    unfold severityFor
    rw [hcrit, hhigh]
    simp
  have h09 : ¬ (f.relevance_score
      < SignalProcessor.default.relevance_threshold) := by
    rw [hscore]
    show ¬ ((0.9 : ℝ) < 0.6)
    norm_num
  constructor
  · unfold SignalProcessor.process
    rw [if_neg h09, hsrc]
    show SignalProcessor.default.process_github_finding f = _
    unfold SignalProcessor.process_github_finding
    rw [hsec, hsev]
    simp
  · intro id now
    exact ⟨rfl, rfl, rfl⟩

/-- C1 witness: the amended scenario at the concrete finding. -/
theorem C1_critical_cve_scenario_witness :
    SignalProcessor.default.process c1Finding
      = some (.SecurityVulnerability .Medium (some c1Finding.id) c1Finding.title)
    ∧ ∀ id now,
        (DecisionEngine.process_signal id now
            (.SecurityVulnerability .Medium (some c1Finding.id)
              c1Finding.title)).action = .StandardProcess
        ∧ (DecisionEngine.process_signal id now
            (.SecurityVulnerability .Medium (some c1Finding.id)
              c1Finding.title)).confidence = 0.7
        ∧ (DecisionEngine.process_signal id now
            (.SecurityVulnerability .Medium (some c1Finding.id)
              c1Finding.title)).requires_approval = false :=
  C1_critical_cve_scenario c1Finding rfl rfl rfl (by decide) (by decide)

/-- The concrete ArXiv finding of the C8 scenario: relevance 0.75. -/
noncomputable def c8Finding : ResearchFinding :=
  { id := "arxiv-1", source := .ArXiv, title := "Generalization Bounds",
    summary := "A study of generalization", relevance_score := 0.75,
    discovered_at := 0, tags := ["cs.LG"], url := none, metadata := [] }

/-- C8: an ArXiv-sourced finding with relevance 0.75 (above the 0.6 gate)
yields `ResearchPublished` with that relevance, and the decision on it is
`DeepAnalyze` with confidence 0.80 and `requires_approval = true`
(0.80 < 0.85). -/
theorem C8_arxiv_scenario (f : ResearchFinding)
    (hsrc : f.source = .ArXiv)
    (hscore : f.relevance_score = 0.75) :
    SignalProcessor.default.process f
      = some (.ResearchPublished f.title 0.75 (f.tags.head?.getD "Unknown"))
    ∧ ∀ id now,
        (DecisionEngine.process_signal id now
            (.ResearchPublished f.title 0.75 (f.tags.head?.getD "Unknown"))).action
          = .DeepAnalyze
        ∧ (DecisionEngine.process_signal id now
            (.ResearchPublished f.title 0.75 (f.tags.head?.getD "Unknown"))).confidence
          = 0.8
        ∧ (DecisionEngine.process_signal id now
            (.ResearchPublished f.title 0.75
              (f.tags.head?.getD "Unknown"))).requires_approval
          = true := by
  have h075 : ¬ (f.relevance_score
      < SignalProcessor.default.relevance_threshold) := by
    rw [hscore]
    show ¬ ((0.75 : ℝ) < 0.6)
    norm_num
  have hrule : DecisionEngine.apply_rules
      (.ResearchPublished f.title 0.75 (f.tags.head?.getD "Unknown"))
      (DecisionEngine.build_context
        (.ResearchPublished f.title 0.75 (f.tags.head?.getD "Unknown")))
      = (.DeepAnalyze, 0.8) := by
    show (if (0.7 : ℝ) < 0.75 then ((Action.DeepAnalyze, 0.8) : Action × ℝ)
        else (Action.Archive, 0.7)) = (Action.DeepAnalyze, 0.8)
    rw [if_pos (by norm_num : (0.7 : ℝ) < 0.75)]
  constructor
  · unfold SignalProcessor.process
    rw [if_neg h075, hsrc]
    show SignalProcessor.default.process_arxiv_finding f = _
    unfold SignalProcessor.process_arxiv_finding
    rw [hscore]
  · intro id now
    have ha : (DecisionEngine.process_signal id now
        (.ResearchPublished f.title 0.75 (f.tags.head?.getD "Unknown"))).action
        = (DecisionEngine.apply_rules
            (.ResearchPublished f.title 0.75 (f.tags.head?.getD "Unknown"))
            (DecisionEngine.build_context
              (.ResearchPublished f.title 0.75
                (f.tags.head?.getD "Unknown")))).1 := rfl
    have hc : (DecisionEngine.process_signal id now
        (.ResearchPublished f.title 0.75 (f.tags.head?.getD "Unknown"))).confidence
        = (DecisionEngine.apply_rules
            (.ResearchPublished f.title 0.75 (f.tags.head?.getD "Unknown"))
            (DecisionEngine.build_context
              (.ResearchPublished f.title 0.75
                (f.tags.head?.getD "Unknown")))).2 := rfl
    have hq : (DecisionEngine.process_signal id now
        (.ResearchPublished f.title 0.75 (f.tags.head?.getD "Unknown"))).requires_approval
        = DecisionEngine.requires_approval
            (DecisionEngine.apply_rules
              (.ResearchPublished f.title 0.75 (f.tags.head?.getD "Unknown"))
              (DecisionEngine.build_context
                (.ResearchPublished f.title 0.75
                  (f.tags.head?.getD "Unknown")))).1
            (DecisionEngine.apply_rules
              (.ResearchPublished f.title 0.75 (f.tags.head?.getD "Unknown"))
              (DecisionEngine.build_context
                (.ResearchPublished f.title 0.75
                  (f.tags.head?.getD "Unknown")))).2 := rfl
    refine ⟨?_, ?_, ?_⟩
    · rw [ha, hrule]
    · rw [hc, hrule]
    · rw [hq, hrule]
      unfold DecisionEngine.requires_approval
      rw [decide_eq_true_eq]
      norm_num

/-- C8 witness: the scenario at the concrete ArXiv finding. -/
theorem C8_arxiv_scenario_witness :
    SignalProcessor.default.process c8Finding
      = some (.ResearchPublished c8Finding.title 0.75
          (c8Finding.tags.head?.getD "Unknown"))
    ∧ ∀ id now,
        (DecisionEngine.process_signal id now
            (.ResearchPublished c8Finding.title 0.75
              (c8Finding.tags.head?.getD "Unknown"))).action = .DeepAnalyze
        ∧ (DecisionEngine.process_signal id now
            (.ResearchPublished c8Finding.title 0.75
              (c8Finding.tags.head?.getD "Unknown"))).confidence = 0.8
        ∧ (DecisionEngine.process_signal id now
            (.ResearchPublished c8Finding.title 0.75
              (c8Finding.tags.head?.getD "Unknown"))).requires_approval = true :=
  C8_arxiv_scenario c8Finding rfl rfl

/-- A concrete pending task for the scheduler claims. -/
def c3Task : ResearchTask :=
  { id := "a", topic := "", priority := .Normal, status := .Pending,
    source := none, created_at := 0, started_at := none, completed_at := none,
    retry_count := 0, max_retries := 3 }

/-- C3 counterexample: after cancelling the only task, `clear_completed`
does not remove it — the sweep retains everything that is neither Completed
nor Failed, so the Cancelled task survives; the claim as stated says the
sweep removes it. -/
theorem C3_counterexample :
    (TaskScheduler.clearCompleted (TaskScheduler.cancelTask "a" [c3Task]).1).length = 1
    ∧ ∃ t ∈ TaskScheduler.clearCompleted (TaskScheduler.cancelTask "a" [c3Task]).1,
        t.id = "a" ∧ t.status = .Cancelled := by decide

/-- C3 (amended): for every task id present in the queue, `cancel_task`
reports success and marks that task Cancelled in place (the queue keeps its
length), and the task survives a subsequent `clear_completed` sweep — the
sweep removes only Completed and Failed tasks, not Cancelled ones. -/
theorem C3_cancel_survives_clear (q : List ResearchTask) (tid : String)
    (h : ∃ t ∈ q, t.id = tid) :
    (TaskScheduler.cancelTask tid q).2 = true
    ∧ (TaskScheduler.cancelTask tid q).1.length = q.length
    ∧ ∃ t ∈ (TaskScheduler.cancelTask tid q).1,
        t.id = tid ∧ t.status = .Cancelled
          ∧ t ∈ TaskScheduler.clearCompleted (TaskScheduler.cancelTask tid q).1 := by
  induction q with
  | nil => simp at h
  | cons x xs ih =>
    by_cases hid : x.id = tid
    · have hcc : TaskScheduler.cancelTask tid (x :: xs)
          = ({ x with status := .Cancelled } :: xs, true) := by
        simp [TaskScheduler.cancelTask, hid]
      rw [hcc]
      exact ⟨rfl, by simp, { x with status := .Cancelled },
        List.mem_cons_self _ _, hid, rfl,
        List.mem_filter.mpr ⟨List.mem_cons_self _ _, rfl⟩⟩
    · obtain ⟨t, ht, htid⟩ := h
      have hts : t ∈ xs := by
        rcases List.mem_cons.mp ht with rfl | hmem
        · exact absurd htid hid
        · exact hmem
      obtain ⟨ih1, ih2, t1, ht1, ht1id, ht1st, ht1clear⟩ := ih ⟨t, hts, htid⟩
      have hcc : TaskScheduler.cancelTask tid (x :: xs)
          = (x :: (TaskScheduler.cancelTask tid xs).1,
             (TaskScheduler.cancelTask tid xs).2) := by
        simp [TaskScheduler.cancelTask, hid]
      rw [hcc]
      refine ⟨ih1, by simpa using ih2, t1, List.mem_cons_of_mem _ ht1,
        ht1id, ht1st, ?_⟩
      obtain ⟨hmem, hp⟩ := List.mem_filter.mp ht1clear
      exact List.mem_filter.mpr ⟨List.mem_cons_of_mem _ hmem, hp⟩

/-- C3 witness: the amended property on a one-task queue. -/
theorem C3_cancel_survives_clear_witness :
    (TaskScheduler.cancelTask "a" [c3Task]).2 = true
    ∧ (TaskScheduler.cancelTask "a" [c3Task]).1.length = [c3Task].length
    ∧ ∃ t ∈ (TaskScheduler.cancelTask "a" [c3Task]).1,
        t.id = "a" ∧ t.status = .Cancelled
          ∧ t ∈ TaskScheduler.clearCompleted (TaskScheduler.cancelTask "a" [c3Task]).1 :=
  C3_cancel_survives_clear [c3Task] "a" (by decide)

/-- The id of a task returned by `get_next_task` is the id of some task of
the queue it was called on. -/
theorem getNextTask_id_mem (now : Int) (q : List ResearchTask)
    (t : ResearchTask) (q' : List ResearchTask)
    (h : TaskScheduler.getNextTask now q = some (t, q')) :
    t.id ∈ q.map ResearchTask.id := by
  induction q generalizing t q' with
  | nil => simp [TaskScheduler.getNextTask] at h
  | cons x xs ih =>
    by_cases hx : x.status = .Pending
    · simp only [TaskScheduler.getNextTask, if_pos hx, Option.some.injEq,
        Prod.mk.injEq] at h
      obtain ⟨ht, -⟩ := h
      rw [← ht]
      simp
    · simp only [TaskScheduler.getNextTask, if_neg hx,
        Option.map_eq_some'] at h
      obtain ⟨⟨r, rq⟩, hr, heq⟩ := h
      simp only [Prod.mk.injEq] at heq
      obtain ⟨ht, -⟩ := heq
      rw [← ht]
      exact List.mem_cons_of_mem _ (ih r rq hr)

/-- C5: a successful `get_next_task` returns the first Pending task of the
queue, removed from the queue in the same call, with status Running and a
non-null start timestamp; and (for a queue with distinct task ids) a
subsequent call can never return the same task again. -/
theorem C5_get_next_task_spec (now : Int) (q : List ResearchTask)
    (t : ResearchTask) (q' : List ResearchTask)
    (h : TaskScheduler.getNextTask now q = some (t, q')) :
    t.status = .Running
    ∧ t.started_at = some now
    ∧ (∃ idx t0, q.get? idx = some t0 ∧ t0.status = .Pending
        ∧ (∀ j, j < idx → ∀ u, q.get? j = some u → u.status ≠ .Pending)
        ∧ t = { t0 with status := .Running, started_at := some now }
        ∧ q' = q.eraseIdx idx)
    ∧ ((q.map ResearchTask.id).Nodup →
        ∀ now2 t2 q2, TaskScheduler.getNextTask now2 q' = some (t2, q2) →
          t2.id ≠ t.id) := by
  induction q generalizing t q' with
  | nil => simp [TaskScheduler.getNextTask] at h
  | cons x xs ih =>
    by_cases hx : x.status = .Pending
    · simp only [TaskScheduler.getNextTask, if_pos hx, Option.some.injEq,
        Prod.mk.injEq] at h
      obtain ⟨ht, hq⟩ := h
      subst hq
      refine ⟨by rw [← ht], by rw [← ht], ⟨0, x, rfl, hx, ?_, ht.symm, rfl⟩, ?_⟩
      · intro j hj
        omega
      · intro hnd now2 t2 q2 h2
        have h2id : t2.id ∈ xs.map ResearchTask.id :=
          getNextTask_id_mem now2 xs t2 q2 h2
        have hxid : x.id ∉ xs.map ResearchTask.id :=
          (List.nodup_cons.mp (by simpa using hnd)).1
        intro habs
        rw [habs, ← ht] at h2id
        exact hxid h2id
    · simp only [TaskScheduler.getNextTask, if_neg hx,
        Option.map_eq_some'] at h
      obtain ⟨⟨r, rq⟩, hr, heq⟩ := h
      simp only [Prod.mk.injEq] at heq
      obtain ⟨ht, hq⟩ := heq
      subst ht
      subst hq
      obtain ⟨ihs, ihst, ⟨idx, t0, hget, hp, hfirst, hteq, herase⟩, ihuniq⟩ :=
        ih r rq hr
      refine ⟨ihs, ihst, ⟨idx + 1, t0, by simpa using hget, hp, ?_, hteq, ?_⟩, ?_⟩
      · intro j hj u hu
        match j, hu with
        | 0, hu =>
          have := Option.some.inj hu
          rw [← this]
          exact hx
        | k + 1, hu =>
          exact hfirst k (by omega) u (by simpa using hu)
      · simpa using herase
      · intro hnd now2 t2 q2 h2
        have hnd1 : (xs.map ResearchTask.id).Nodup :=
          (List.nodup_cons.mp (by simpa using hnd)).2
        simp only [TaskScheduler.getNextTask, if_neg hx,
          Option.map_eq_some'] at h2
        obtain ⟨⟨s1, s2⟩, hs, heq2⟩ := h2
        simp only [Prod.mk.injEq] at heq2
        obtain ⟨ht2, -⟩ := heq2
        rw [← ht2]
        exact ihuniq hnd1 now2 s1 s2 hs

/-- The task of the C5 witness after its dequeue: Running, started at 5. -/
def c5Dequeued : ResearchTask :=
  { c3Task with status := .Running, started_at := some 5 }

/-- C5 witness: the dequeue contract on a concrete one-task queue. -/
theorem C5_get_next_task_spec_witness :
    c5Dequeued.status = .Running
    ∧ c5Dequeued.started_at = some 5
    ∧ (∃ idx t0, [c3Task].get? idx = some t0 ∧ t0.status = .Pending
        ∧ (∀ j, j < idx → ∀ u, [c3Task].get? j = some u → u.status ≠ .Pending)
        ∧ c5Dequeued = { t0 with status := .Running, started_at := some 5 }
        ∧ ([] : List ResearchTask) = [c3Task].eraseIdx idx)
    ∧ (([c3Task].map ResearchTask.id).Nodup →
        ∀ now2 t2 q2,
          TaskScheduler.getNextTask now2 ([] : List ResearchTask) = some (t2, q2) →
          t2.id ≠ c5Dequeued.id) :=
  C5_get_next_task_spec 5 [c3Task] c5Dequeued [] (by decide)

/-- `insertByPriority` splits the queue at the first strictly
lower-priority task: the new task lands exactly there (at the end when
there is none), with every task before the insertion point of priority at
least the new task's — so equal-priority tasks keep FIFO order. -/
theorem insertByPriority_split (task : ResearchTask) (q : List ResearchTask) :
    ∃ a b, q = a ++ b
      ∧ TaskScheduler.insertByPriority task q = a ++ task :: b
      ∧ (∀ x ∈ a, task.priority.toNat ≤ x.priority.toNat)
      ∧ (∀ y, b.head? = some y → y.priority.toNat < task.priority.toNat) := by
  induction q with
  | nil => exact ⟨[], [], rfl, rfl, by simp, by simp⟩
  | cons t ts ih =>
    by_cases hlt : t.priority.toNat < task.priority.toNat
    · refine ⟨[], t :: ts, rfl, ?_, by simp, ?_⟩
      · simp [TaskScheduler.insertByPriority, hlt]
      · intro y hy
        rw [← Option.some.inj hy]
        exact hlt
    · obtain ⟨a, b, hq, hins, ha, hb⟩ := ih
      refine ⟨t :: a, b, by rw [List.cons_append, ← hq], ?_, ?_, hb⟩
      · simp [TaskScheduler.insertByPriority, hlt, hins]
      · intro x hx
        rcases List.mem_cons.mp hx with rfl | hmem
        · omega
        · exact ha x hmem

/-- `insertByPriority` grows the queue by exactly one task. -/
theorem insertByPriority_length (task : ResearchTask) (q : List ResearchTask) :
    (TaskScheduler.insertByPriority task q).length = q.length + 1 := by
  obtain ⟨a, b, hq, hins, -, -⟩ := insertByPriority_split task q
  rw [hins, hq]
  simp only [List.length_append, List.length_cons]
  omega

/-- When `removeFirstBackground` succeeds, the queue splits around its
first Background task, which is the one removed. -/
theorem removeFirstBackground_some (q q1 : List ResearchTask)
    (h : TaskScheduler.evictOne.removeFirstBackground q = some q1) :
    ∃ pre b post, q = pre ++ b :: post ∧ b.priority = .Background
      ∧ (∀ x ∈ pre, x.priority ≠ .Background) ∧ q1 = pre ++ post := by
  induction q generalizing q1 with
  | nil => simp [TaskScheduler.evictOne.removeFirstBackground] at h
  | cons t ts ih =>
    by_cases hb : t.priority = .Background
    · simp only [TaskScheduler.evictOne.removeFirstBackground, if_pos hb,
        Option.some.injEq] at h
      exact ⟨[], t, ts, rfl, hb, by simp, h.symm⟩
    · simp only [TaskScheduler.evictOne.removeFirstBackground, if_neg hb,
        Option.map_eq_some'] at h
      obtain ⟨q2, hq2, heq⟩ := h
      obtain ⟨pre, b, post, hsplit, hbb, hpre, hq1⟩ := ih q2 hq2
      refine ⟨t :: pre, b, post, by rw [List.cons_append, ← hsplit], hbb, ?_, ?_⟩
      · intro x hx
        rcases List.mem_cons.mp hx with rfl | hmem
        · exact hb
        · exact hpre x hmem
      · rw [← heq, hq1]
        rfl

/-- When no task has Background priority, `removeFirstBackground` fails. -/
theorem removeFirstBackground_none (q : List ResearchTask)
    (h : ∀ t ∈ q, t.priority ≠ .Background) :
    TaskScheduler.evictOne.removeFirstBackground q = none := by
  induction q with
  | nil => rfl
  | cons t ts ih =>
    have hb : ¬ t.priority = .Background := h t (List.mem_cons_self _ _)
    simp [TaskScheduler.evictOne.removeFirstBackground, hb,
      ih fun u hu => h u (List.mem_cons_of_mem _ hu)]

/-- The converse: a failing `removeFirstBackground` means no task of the
queue has Background priority. -/
theorem removeFirstBackground_none_forall (q : List ResearchTask)
    (h : TaskScheduler.evictOne.removeFirstBackground q = none) :
    ∀ t ∈ q, t.priority ≠ .Background := by
  induction q with
  | nil => simp
  | cons t ts ih =>
    intro u hu
    by_cases hb : t.priority = .Background
    · simp [TaskScheduler.evictOne.removeFirstBackground, hb] at h
    · simp only [TaskScheduler.evictOne.removeFirstBackground, if_neg hb,
        Option.map_eq_none'] at h
      rcases List.mem_cons.mp hu with rfl | hmem
      · exact hb
      · exact ih h u hmem

/-- One Normal-priority pending task created at time `i`. -/
def c2Normal (i : Nat) : ResearchTask :=
  { id := "", topic := "", priority := .Normal, status := .Pending,
    source := none, created_at := (i : Int), started_at := none,
    completed_at := none, retry_count := 0, max_retries := 3 }

/-- A Critical-priority pending task created at time 99 — the newest task
of the C2 counterexample queue, sitting at the front because the queue is
kept in descending priority order. -/
def c2Critical : ResearchTask :=
  { id := "crit", topic := "", priority := .Critical, status := .Pending,
    source := none, created_at := 99, started_at := none,
    completed_at := none, retry_count := 0, max_retries := 3 }

/-- The C2 counterexample queue: 100 tasks, no Background priority — the
Critical task (created at 99) at the front, then 99 Normal tasks created
at 0..98. -/
def c2Queue : List ResearchTask := c2Critical :: (List.range 99).map c2Normal

/-- The task whose `add_task` call triggers the eviction in the C2
counterexample. -/
def c2New : ResearchTask := c2Normal 100

set_option maxRecDepth 100000 in
/-- C2 counterexample: on a full queue with no Background task, `add_task`
evicts the front of the priority-ordered queue, not the task with the
earliest creation: the unique task created at 0 (the oldest) is still in
the queue after the call, while the unique task created at 99 (the newest,
the Critical one at the front) is the one evicted. -/
theorem C2_counterexample :
    c2Queue.length = 100
    ∧ (∀ t ∈ c2Queue, t.priority ≠ .Background)
    ∧ (∀ t ∈ c2Queue, 0 ≤ t.created_at ∧ t.created_at ≤ 99)
    ∧ c2Queue.countP (fun t => decide (t.created_at = 0)) = 1
    ∧ (TaskScheduler.addTask c2Queue c2New).countP
        (fun t => decide (t.created_at = 0)) = 1
    ∧ c2Queue.countP (fun t => decide (t.created_at = 99)) = 1
    ∧ (TaskScheduler.addTask c2Queue c2New).countP
        (fun t => decide (t.created_at = 99)) = 0 := by decide

/-- C2 (amended): on a queue at capacity (100 tasks), `add_task` never
drops the new task; it evicts the first Background task when one exists,
and otherwise evicts the front task of the priority-ordered queue (the
oldest among the highest-priority tasks, not necessarily the earliest
created); the queue stays at 100 tasks, and the new task is inserted
immediately before the first existing task of strictly lower priority, so
equal-priority tasks stay in FIFO order. -/
theorem C2_add_task_eviction (q : List ResearchTask) (task : ResearchTask)
    (hlen : q.length = 100) :
    task ∈ TaskScheduler.addTask q task
    ∧ (TaskScheduler.addTask q task).length = 100
    ∧ ((∀ t ∈ q, t.priority ≠ .Background) →
        TaskScheduler.addTask q task
          = TaskScheduler.insertByPriority task q.tail)
    ∧ ((∃ t ∈ q, t.priority = .Background) →
        ∃ pre b post, q = pre ++ b :: post ∧ b.priority = .Background
          ∧ (∀ x ∈ pre, x.priority ≠ .Background)
          ∧ TaskScheduler.addTask q task
              = TaskScheduler.insertByPriority task (pre ++ post))
    ∧ ∀ r, ∃ a b, r = a ++ b
        ∧ TaskScheduler.insertByPriority task r = a ++ task :: b
        ∧ (∀ x ∈ a, task.priority.toNat ≤ x.priority.toNat)
        ∧ (∀ y, b.head? = some y → y.priority.toNat < task.priority.toNat) := by
  have hcap : TaskScheduler.max_queue_size ≤ q.length := by
    rw [hlen]
    exact Nat.le_refl _
  have haddeq : TaskScheduler.addTask q task
      = TaskScheduler.insertByPriority task (TaskScheduler.evictOne q) := by
    unfold TaskScheduler.addTask
    rw [if_pos hcap]
  have hevlen : (TaskScheduler.evictOne q).length = 99 := by
    unfold TaskScheduler.evictOne
    cases hrm : TaskScheduler.evictOne.removeFirstBackground q with
    | some q1 =>
      obtain ⟨pre, b, post, hsplit, -, -, hq1⟩ := removeFirstBackground_some q q1 hrm
      rw [hsplit] at hlen
      rw [hq1]
      simp only [List.length_append, List.length_cons] at hlen ⊢
      omega
    | none =>
      show q.tail.length = 99
      have := List.length_tail q
      omega
  refine ⟨?_, ?_, ?_, ?_, fun r => insertByPriority_split task r⟩
  · rw [haddeq]
    obtain ⟨a, b, -, hins, -, -⟩ :=
      insertByPriority_split task (TaskScheduler.evictOne q)
    rw [hins]
    exact List.mem_append_right a (List.mem_cons_self _ _)
  · rw [haddeq, insertByPriority_length, hevlen]
  · intro hnb
    rw [haddeq]
    unfold TaskScheduler.evictOne
    rw [removeFirstBackground_none q hnb]
  · intro hex
    cases hrm : TaskScheduler.evictOne.removeFirstBackground q with
    | some q1 =>
      obtain ⟨pre, b, post, hsplit, hbb, hpre, hq1⟩ :=
        removeFirstBackground_some q q1 hrm
      refine ⟨pre, b, post, hsplit, hbb, hpre, ?_⟩
      rw [haddeq]
      unfold TaskScheduler.evictOne
      rw [hrm, hq1]
    | none =>
      obtain ⟨t, ht, htb⟩ := hex
      exact absurd htb (removeFirstBackground_none_forall q hrm t ht)

/-- C2 witness: the amended eviction/insertion contract on a concrete full
queue of 100 Normal tasks. -/
theorem C2_add_task_eviction_witness :
    c2New ∈ TaskScheduler.addTask (List.replicate 100 c3Task) c2New
    ∧ (TaskScheduler.addTask (List.replicate 100 c3Task) c2New).length = 100
    ∧ ((∀ t ∈ List.replicate 100 c3Task, t.priority ≠ .Background) →
        TaskScheduler.addTask (List.replicate 100 c3Task) c2New
          = TaskScheduler.insertByPriority c2New (List.replicate 100 c3Task).tail)
    ∧ ((∃ t ∈ List.replicate 100 c3Task, t.priority = .Background) →
        ∃ pre b post, List.replicate 100 c3Task = pre ++ b :: post
          ∧ b.priority = .Background
          ∧ (∀ x ∈ pre, x.priority ≠ .Background)
          ∧ TaskScheduler.addTask (List.replicate 100 c3Task) c2New
              = TaskScheduler.insertByPriority c2New (pre ++ post))
    ∧ ∀ r, ∃ a b, r = a ++ b
        ∧ TaskScheduler.insertByPriority c2New r = a ++ c2New :: b
        ∧ (∀ x ∈ a, c2New.priority.toNat ≤ x.priority.toNat)
        ∧ (∀ y, b.head? = some y → y.priority.toNat < c2New.priority.toNat) :=
  C2_add_task_eviction (List.replicate 100 c3Task) c2New (by simp)

/-- The clamp at the end of `score` keeps every score non-negative. -/
theorem score_nonneg (s : RelevanceScorer) (now : Int) (f : ResearchFinding) :
    0 ≤ s.score now f :=
  le_min (le_max_right _ _) zero_le_one

/-- The clamp at the end of `score` keeps every score at most one. -/
theorem score_le_one (s : RelevanceScorer) (now : Int) (f : ResearchFinding) :
    s.score now f ≤ 1 :=
  min_le_right _ _

/-- C9: for every scorer configuration and finding, the relevance score is
in [0, 1] and equals the weighted sum of the four sub-scores clamped to
[0, 1] (the spec-side clamp `specClamp01`); `score_all` stores exactly such
scores into the findings; and the default weights are keyword 0.40,
recency 0.20, authority 0.25, engagement 0.15. The bounds hold for every
weight configuration, non-negative or not. -/
theorem C9_score_in_unit_interval (s : RelevanceScorer) (now : Int)
    (f : ResearchFinding) :
    0 ≤ s.score now f
    ∧ s.score now f ≤ 1
    ∧ s.score now f
      = specClamp01 (s.keyword_score f * s.weights.keyword_match
          + RelevanceScorer.recency_score now f * s.weights.recency
          + RelevanceScorer.source_authority_score f * s.weights.source_authority
          + RelevanceScorer.engagement_score f * s.weights.engagement)
    ∧ (∀ fs, ∀ g ∈ s.score_all now fs,
        0 ≤ g.relevance_score ∧ g.relevance_score ≤ 1)
    ∧ ScoringWeights.default.keyword_match = 0.4
    ∧ ScoringWeights.default.recency = 0.2
    ∧ ScoringWeights.default.source_authority = 0.25
    ∧ ScoringWeights.default.engagement = 0.15 := by
  have key : ∀ x : ℝ, min (max x 0) 1 = max 0 (min x 1) := by
    intro x
    simp only [min_def, max_def]
    split_ifs <;> linarith
  refine ⟨score_nonneg s now f, score_le_one s now f, key _, ?_, rfl, rfl, rfl, rfl⟩
  intro fs g hg
  simp only [RelevanceScorer.score_all, List.mem_map] at hg
  obtain ⟨f0, -, rfl⟩ := hg
  exact ⟨score_nonneg s now f0, score_le_one s now f0⟩

/-- The keyword sub-score is non-negative. -/
theorem keyword_score_nonneg (s : RelevanceScorer) (f : ResearchFinding) :
    0 ≤ RelevanceScorer.keyword_score s f := by
  by_cases h : s.keywords = ∅
  · simp only [RelevanceScorer.keyword_score, if_pos h]
    norm_num
  · simp only [RelevanceScorer.keyword_score, if_neg h]
    exact le_min (div_nonneg (Nat.cast_nonneg _) (Nat.cast_nonneg _)) zero_le_one

/-- The keyword sub-score is at most one. -/
theorem keyword_score_le_one (s : RelevanceScorer) (f : ResearchFinding) :
    RelevanceScorer.keyword_score s f ≤ 1 := by
  by_cases h : s.keywords = ∅
  · simp only [RelevanceScorer.keyword_score, if_pos h]
    norm_num
  · simp only [RelevanceScorer.keyword_score, if_neg h]
    exact min_le_right _ _

/-- The recency sub-score is non-negative. -/
theorem recency_score_nonneg (now : Int) (f : ResearchFinding) :
    0 ≤ RelevanceScorer.recency_score now f := by
  simp only [RelevanceScorer.recency_score]
  split_ifs <;> norm_num

/-- The recency sub-score is at most one. -/
theorem recency_score_le_one (now : Int) (f : ResearchFinding) :
    RelevanceScorer.recency_score now f ≤ 1 := by
  simp only [RelevanceScorer.recency_score]
  split_ifs <;> norm_num

/-- The source-authority sub-score lies between 0 and 0.95. -/
theorem source_authority_score_bounds (f : ResearchFinding) :
    0 ≤ RelevanceScorer.source_authority_score f
      ∧ RelevanceScorer.source_authority_score f ≤ 0.95 := by
  cases hs : f.source <;>
    simp only [RelevanceScorer.source_authority_score, hs] <;>
    norm_num

/-- C10: the engagement sub-score is not monotone at the zero boundary — a
finding with zero stars, citations and likes scores 0.3, while an
otherwise identical finding whose weighted engagement total equals 1 (one
like) scores ln(1)/ln(10) = 0 — so with the default weights for the other
three factors and any positive engagement weight, adding the single like
strictly lowers the overall relevance score. -/
theorem C10_engagement_nonmonotone (f : ResearchFinding) (m1 : Metadata)
    (kws : Finset String) (thr : ℝ) (now : Int) (w : ℝ)
    (h0s : metaU64 f.metadata "stars" = 0)
    (h0c : metaU64 f.metadata "citations" = 0)
    (h0l : metaU64 f.metadata "likes" = 0)
    (h1s : metaU64 m1 "stars" = 0)
    (h1c : metaU64 m1 "citations" = 0)
    (h1l : metaU64 m1 "likes" = 1)
    (hw : 0 < w) :
    RelevanceScorer.engagement_score f = 0.3
    ∧ RelevanceScorer.engagement_score { f with metadata := m1 } = 0
    ∧ RelevanceScorer.score
        { keywords := kws,
          weights := { ScoringWeights.default with engagement := w },
          min_threshold := thr } now { f with metadata := m1 }
      < RelevanceScorer.score
          { keywords := kws,
            weights := { ScoringWeights.default with engagement := w },
            min_threshold := thr } now f := by
  have e0 : RelevanceScorer.engagement_score f = 0.3 := by
    simp only [RelevanceScorer.engagement_score, h0s, h0c, h0l]
    norm_num
  have e1 : RelevanceScorer.engagement_score { f with metadata := m1 } = 0 := by
    have hm : ({ f with metadata := m1 } : ResearchFinding).metadata = m1 := rfl
    simp only [RelevanceScorer.engagement_score, hm, h1s, h1c, h1l]
    norm_num [Real.log_one]
  refine ⟨e0, e1, ?_⟩
  have hsrw : ∀ g : ResearchFinding,
      RelevanceScorer.score
        { keywords := kws,
          weights := { ScoringWeights.default with engagement := w },
          min_threshold := thr } now g
      = min (max (RelevanceScorer.keyword_score
            { keywords := kws,
              weights := { ScoringWeights.default with engagement := w },
              min_threshold := thr } g * 0.4
          + RelevanceScorer.recency_score now g * 0.2
          + RelevanceScorer.source_authority_score g * 0.25
          + RelevanceScorer.engagement_score g * w) 0) 1 := fun g => rfl
  rw [hsrw, hsrw, e0, e1]
  have hkw : RelevanceScorer.keyword_score
      { keywords := kws,
        weights := { ScoringWeights.default with engagement := w },
        min_threshold := thr } ({ f with metadata := m1 } : ResearchFinding)
      = RelevanceScorer.keyword_score
        { keywords := kws,
          weights := { ScoringWeights.default with engagement := w },
          min_threshold := thr } f := rfl
  have hrc : RelevanceScorer.recency_score now ({ f with metadata := m1 } : ResearchFinding)
      = RelevanceScorer.recency_score now f := rfl
  have hau : RelevanceScorer.source_authority_score
      ({ f with metadata := m1 } : ResearchFinding)
      = RelevanceScorer.source_authority_score f := rfl
  rw [hkw, hrc, hau, zero_mul, add_zero]
  have hK0 := keyword_score_nonneg
    { keywords := kws,
      weights := { ScoringWeights.default with engagement := w },
      min_threshold := thr } f
  have hK1 := keyword_score_le_one
    { keywords := kws,
      weights := { ScoringWeights.default with engagement := w },
      min_threshold := thr } f
  have hR0 := recency_score_nonneg now f
  have hR1 := recency_score_le_one now f
  obtain ⟨hA0, hA95⟩ := source_authority_score_bounds f
  set K := RelevanceScorer.keyword_score
    { keywords := kws,
      weights := { ScoringWeights.default with engagement := w },
      min_threshold := thr } f
  set R := RelevanceScorer.recency_score now f
  set A := RelevanceScorer.source_authority_score f
  have hKm : K * 0.4 ≤ 0.4 := by nlinarith
  have hRm : R * 0.2 ≤ 0.2 := by nlinarith
  have hAm : A * 0.25 ≤ 0.2375 := by nlinarith
  have hKp : 0 ≤ K * 0.4 := by nlinarith
  have hRp : 0 ≤ R * 0.2 := by nlinarith
  have hAp : 0 ≤ A * 0.25 := by nlinarith
  have hb0 : 0 ≤ K * 0.4 + R * 0.2 + A * 0.25 := by linarith
  have hb1 : K * 0.4 + R * 0.2 + A * 0.25 ≤ 0.8375 := by linarith
  have h3w : 0 < 0.3 * w := by nlinarith
  rw [max_eq_left hb0, min_eq_left (by linarith), max_eq_left (by linarith)]
  exact lt_min (by linarith) (by linarith)

/-- The finding of the C10 witness: no engagement metadata at all (all
engagement counters read 0). -/
noncomputable def c10Finding : ResearchFinding :=
  { id := "f10", source := .GitHub, title := "a library", summary := "",
    relevance_score := 0, discovered_at := 0, tags := [], url := none,
    metadata := [] }

/-- The metadata of the C10 witness's second finding: exactly one like. -/
def c10m1 : Metadata := [("likes", 1)]

/-- C10 witness: the non-monotonicity at a concrete input — engagement
weight 0.15 (the default), one like versus none. -/
theorem C10_engagement_nonmonotone_witness :
    RelevanceScorer.engagement_score c10Finding = 0.3
    ∧ RelevanceScorer.engagement_score { c10Finding with metadata := c10m1 } = 0
    ∧ RelevanceScorer.score
        { keywords := (∅ : Finset String),
          weights := { ScoringWeights.default with engagement := 0.15 },
          min_threshold := 0.3 } 0 { c10Finding with metadata := c10m1 }
      < RelevanceScorer.score
          { keywords := (∅ : Finset String),
            weights := { ScoringWeights.default with engagement := 0.15 },
            min_threshold := 0.3 } 0 c10Finding :=
  C10_engagement_nonmonotone c10Finding c10m1 ∅ 0.3 0 0.15
    rfl rfl rfl rfl rfl rfl (by norm_num)

end Cirkelline
